import Mathlib

/-
  Verification development for `parse_nginx_log.py` (nginx access-log → CSV
  converter with optional git commit).

  The embedding models:
  * `LOG_RE` (source lines 11-28), an anchored regular expression matched
    against each input line with `re.match`.  Every construct of the pattern
    (`\S+`, `\s+`, `\[[^\]]*\]`, `"[^"]*"`, `\d{3}`, `\s*$`) is deterministic
    in the sense that no global match ever needs backtracking past a maximal
    munch, so the pattern is embedded as a recursive-descent matcher over
    `List Char`; each definition below is annotated with the regex fragment
    it implements.  The character classes `\s` and `\d` are modelled by their
    ASCII fragments (Python's `re` defaults to Unicode classes; nginx access
    log lines are ASCII).
  * the per-line processing of `main` (source lines 83-117): `rstrip("\n")`,
    the match, `request.split(" ", 2)`, the padded 3-way unpacking, and the
    19-column data row; the header row (source lines 61-81).
    Note: in the source file the two `writer.writerow([...])` blocks at
    lines 61-81 and 95-115 are dedented to column 0, which makes the whole
    file fail to compile (IndentationError at line 83), so the program as
    committed cannot run at all.  The embedding places those statements
    inside `main`'s with-block and loop, as the surrounding code, the
    claim sources and the specification intend.
  * the git commit step of `main` (source lines 121-141): three invocations
    through the `git` helper (`subprocess.run(..., check=True)`, which
    raises a `CalledProcessError` carrying the captured output on a
    non-zero exit status) and one bare `subprocess.run` for
    `git diff --cached --quiet`, whose return code is inspected rather
    than checked.
-/

set_option maxRecDepth 16384

namespace NginxLogToCsv

/-- ASCII fragment of the `\s` character class of Python `re`. -/
def isWs (c : Char) : Bool :=
  c = ' ' || c = '\t' || c = '\n' || c = '\r' || c = '\x0b' || c = '\x0c'

/-- ASCII fragment of the `\d` character class of Python `re`. -/
def isDigitCh (c : Char) : Bool :=
  '0' ≤ c && c ≤ '9'

/-- Maximal munch for `\S+`: splits off the longest leading run of
non-whitespace characters. -/
def takeNonWs : List Char → List Char × List Char
  | [] => ([], [])
  | c :: r =>
    if isWs c then ([], c :: r)
    else
      let p := takeNonWs r
      (c :: p.1, p.2)

/-- `\S+` — one or more non-whitespace characters (maximal). -/
def pSplus (l : List Char) : Option (List Char × List Char) :=
  match l with
  | [] => none
  | c :: _ => if isWs c then none else some (takeNonWs l)

/-- Drops a maximal run of whitespace characters. -/
def skipWs : List Char → List Char
  | [] => []
  | c :: r => if isWs c then skipWs r else c :: r

/-- `\s+` — one or more whitespace characters (maximal). -/
def wsPlus (l : List Char) : Option (List Char) :=
  match l with
  | [] => none
  | c :: r => if isWs c then some (skipWs r) else none

/-- Maximal munch for `[^"]*`: splits off the longest leading run of
non-quote characters. -/
def takeNonQuote : List Char → List Char × List Char
  | [] => ([], [])
  | c :: r =>
    if c = '"' then ([], c :: r)
    else
      let p := takeNonQuote r
      (c :: p.1, p.2)

/-- `"([^"]*)"` — a double-quoted field; returns the capture (without the
quotes) and the rest of the input. -/
def quoted (l : List Char) : Option (List Char × List Char) :=
  match l with
  | '"' :: r =>
    match takeNonQuote r with
    | (inner, '"' :: rest) => some (inner, rest)
    | _ => none
  | _ => none

/-- Maximal munch for `[^\]]*`: splits off the longest leading run of
characters other than a closing square bracket. -/
def takeNonRBracket : List Char → List Char × List Char
  | [] => ([], [])
  | c :: r =>
    if c = ']' then ([], c :: r)
    else
      let p := takeNonRBracket r
      (c :: p.1, p.2)

/-- `\[([^\]]+)\]` — the `time_local` field; the capture excludes the
brackets and must be non-empty. -/
def bracketedPlus (l : List Char) : Option (List Char × List Char) :=
  match l with
  | '[' :: r =>
    match takeNonRBracket r with
    | (inner, ']' :: rest) => if inner.isEmpty then none else some (inner, rest)
    | _ => none
  | _ => none

/-- `(\[[^\]]*\])` — the `upstream_name` / `upstream_other` fields; the
capture spans the whole bracketed text, brackets included. -/
def bracketedStar (l : List Char) : Option (List Char × List Char) :=
  match l with
  | '[' :: r =>
    match takeNonRBracket r with
    | (inner, ']' :: rest) => some ('[' :: (inner ++ [']']), rest)
    | _ => none
  | _ => none

/-- `(\d{3})` — exactly three digits (the `status` field). -/
def digits3 (l : List Char) : Option (List Char × List Char) :=
  match l with
  | a :: b :: c :: r =>
    if isDigitCh a && isDigitCh b && isDigitCh c then some ([a, b, c], r) else none
  | _ => none

/-- Captures of the first half of `LOG_RE`, up to and including the quoted
`http_user_agent` field. -/
structure HeadGroups where
  remote_addr : List Char
  remote_user : List Char
  time_local : List Char
  request : List Char
  status : List Char
  body_bytes_sent : List Char
  http_referer : List Char
  http_user_agent : List Char
deriving DecidableEq, Repr

/-- Captures of the second half of `LOG_RE`, from `request_length` to
`request_id`. -/
structure TailGroups where
  request_length : List Char
  request_time : List Char
  upstream_name : List Char
  upstream_other : List Char
  upstream_addr : List Char
  upstream_response_length : List Char
  upstream_response_time : List Char
  upstream_status : List Char
  request_id : List Char
deriving DecidableEq, Repr

/-- All 17 named captures of `LOG_RE`. -/
structure LogGroups where
  remote_addr : List Char
  remote_user : List Char
  time_local : List Char
  request : List Char
  status : List Char
  body_bytes_sent : List Char
  http_referer : List Char
  http_user_agent : List Char
  request_length : List Char
  request_time : List Char
  upstream_name : List Char
  upstream_other : List Char
  upstream_addr : List Char
  upstream_response_length : List Char
  upstream_response_time : List Char
  upstream_status : List Char
  request_id : List Char
deriving DecidableEq, Repr

def combineGroups (h : HeadGroups) (t : TailGroups) : LogGroups :=
  { remote_addr := h.remote_addr
    remote_user := h.remote_user
    time_local := h.time_local
    request := h.request
    status := h.status
    body_bytes_sent := h.body_bytes_sent
    http_referer := h.http_referer
    http_user_agent := h.http_user_agent
    request_length := t.request_length
    request_time := t.request_time
    upstream_name := t.upstream_name
    upstream_other := t.upstream_other
    upstream_addr := t.upstream_addr
    upstream_response_length := t.upstream_response_length
    upstream_response_time := t.upstream_response_time
    upstream_status := t.upstream_status
    request_id := t.request_id }

/-- First half of `LOG_RE` (source lines 12-18):
`^(?P<remote_addr>\S+)\s+\S+\s+(?P<remote_user>\S+)\s+`
`\[(?P<time_local>[^\]]+)\]\s+"(?P<request>[^"]*)"\s+(?P<status>\d{3})\s+`
`(?P<body_bytes_sent>\S+)\s+"(?P<http_referer>[^"]*)"\s+`
`"(?P<http_user_agent>[^"]*)"`.
Note that the slot between `remote_addr` and `remote_user` (the `-` of the
combined log format) is an uncaptured `\S+`: any non-whitespace token. -/
def headParse (l : List Char) : Option (HeadGroups × List Char) :=
  match pSplus l with
  | none => none
  | some (remote_addr, r1) =>
  match wsPlus r1 with
  | none => none
  | some r2 =>
  match pSplus r2 with
  | none => none
  | some (_, r3) =>
  match wsPlus r3 with
  | none => none
  | some r4 =>
  match pSplus r4 with
  | none => none
  | some (remote_user, r5) =>
  match wsPlus r5 with
  | none => none
  | some r6 =>
  match bracketedPlus r6 with
  | none => none
  | some (time_local, r7) =>
  match wsPlus r7 with
  | none => none
  | some r8 =>
  match quoted r8 with
  | none => none
  | some (request, r9) =>
  match wsPlus r9 with
  | none => none
  | some r10 =>
  match digits3 r10 with
  | none => none
  | some (status, r11) =>
  match wsPlus r11 with
  | none => none
  | some r12 =>
  match pSplus r12 with
  | none => none
  | some (body_bytes_sent, r13) =>
  match wsPlus r13 with
  | none => none
  | some r14 =>
  match quoted r14 with
  | none => none
  | some (http_referer, r15) =>
  match wsPlus r15 with
  | none => none
  | some r16 =>
  match quoted r16 with
  | none => none
  | some (http_user_agent, r17) =>
    some (⟨remote_addr, remote_user, time_local, request, status,
           body_bytes_sent, http_referer, http_user_agent⟩, r17)

/-- Second half of `LOG_RE` (source lines 19-27):
`\s+(?P<request_length>\S+)\s+(?P<request_time>\S+)\s+`
`(?P<upstream_name>\[[^\]]*\])\s+(?P<upstream_other>\[[^\]]*\])\s+`
`(?P<upstream_addr>\S+)\s+(?P<upstream_response_length>\S+)\s+`
`(?P<upstream_response_time>\S+)\s+(?P<upstream_status>\S+)\s+`
`(?P<request_id>\S+)\s*$`. -/
def tailParse (l : List Char) : Option TailGroups :=
  match wsPlus l with
  | none => none
  | some r1 =>
  match pSplus r1 with
  | none => none
  | some (request_length, r2) =>
  match wsPlus r2 with
  | none => none
  | some r3 =>
  match pSplus r3 with
  | none => none
  | some (request_time, r4) =>
  match wsPlus r4 with
  | none => none
  | some r5 =>
  match bracketedStar r5 with
  | none => none
  | some (upstream_name, r6) =>
  match wsPlus r6 with
  | none => none
  | some r7 =>
  match bracketedStar r7 with
  | none => none
  | some (upstream_other, r8) =>
  match wsPlus r8 with
  | none => none
  | some r9 =>
  match pSplus r9 with
  | none => none
  | some (upstream_addr, r10) =>
  match wsPlus r10 with
  | none => none
  | some r11 =>
  match pSplus r11 with
  | none => none
  | some (upstream_response_length, r12) =>
  match wsPlus r12 with
  | none => none
  | some r13 =>
  match pSplus r13 with
  | none => none
  | some (upstream_response_time, r14) =>
  match wsPlus r14 with
  | none => none
  | some r15 =>
  match pSplus r15 with
  | none => none
  | some (upstream_status, r16) =>
  match wsPlus r16 with
  | none => none
  | some r17 =>
  match pSplus r17 with
  | none => none
  | some (request_id, r18) =>
    -- `\s*$`: optional trailing whitespace, then end of line
    if (skipWs r18).isEmpty then
      some ⟨request_length, request_time, upstream_name, upstream_other,
            upstream_addr, upstream_response_length, upstream_response_time,
            upstream_status, request_id⟩
    else none

/-- `LOG_RE.match(line)` (source line 85): the whole anchored pattern. -/
def LOG_RE_match (l : List Char) : Option LogGroups :=
  match headParse l with
  | none => none
  | some (h, r) =>
    match tailParse r with
    | none => none
    | some t => some (combineGroups h t)

/-- `line.rstrip("\n")` (source line 84): removes every trailing newline
character. -/
def rstripNl (l : List Char) : List Char :=
  (l.reverse.dropWhile (fun c => c = '\n')).reverse

/-- One step of Python's `request.split(" ", 2)`: splits at the first
occurrence of a single space character, if any. -/
def splitFirstSpace : List Char → Option (List Char × List Char)
  | [] => none
  | c :: r =>
    if c = ' ' then some ([], r)
    else
      match splitFirstSpace r with
      | none => none
      | some (a, b) => some (c :: a, b)

/-- `request.split(" ", 2)` (source line 92): at most two splits on the
exact separator `" "`, the remainder kept whole in the last part. -/
def pySplitSpaceMax2 (s : List Char) : List (List Char) :=
  match splitFirstSpace s with
  | none => [s]
  | some (a, r) =>
    match splitFirstSpace r with
    | none => [a, r]
    | some (b, r2) => [a, b, r2]

/-- `parts + ["", "", ""]` of source line 93. -/
def reqParts (request : List Char) : List (List Char) :=
  pySplitSpaceMax2 request ++ [[], [], []]

/-- `method` of `method, path, protocol = (parts + ["", "", ""])[:3]`. -/
def reqMethod (request : List Char) : List Char :=
  (reqParts request).getD 0 []

/-- `path` of the same unpacking. -/
def reqPath (request : List Char) : List Char :=
  (reqParts request).getD 1 []

/-- `protocol` of the same unpacking. -/
def reqProtocol (request : List Char) : List Char :=
  (reqParts request).getD 2 []

/-- The fixed CSV header row (source lines 61-81). -/
def headerRow : List (List Char) :=
  [("remote_addr").data, ("remote_user").data, ("time_local").data,
   ("method").data, ("path").data, ("protocol").data, ("status").data,
   ("body_bytes_sent").data, ("http_referer").data, ("http_user_agent").data,
   ("request_length").data, ("request_time").data, ("upstream_name").data,
   ("upstream_other").data, ("upstream_addr").data,
   ("upstream_response_length").data, ("upstream_response_time").data,
   ("upstream_status").data, ("request_id").data]

/-- The data row written for one matched line (source lines 95-115). -/
def csvRow (g : LogGroups) : List (List Char) :=
  [g.remote_addr, g.remote_user, g.time_local,
   reqMethod g.request, reqPath g.request, reqProtocol g.request,
   g.status, g.body_bytes_sent, g.http_referer, g.http_user_agent,
   g.request_length, g.request_time, g.upstream_name, g.upstream_other,
   g.upstream_addr, g.upstream_response_length, g.upstream_response_time,
   g.upstream_status, g.request_id]

/-- One iteration of the parse loop (source lines 83-117): strip trailing
newlines, match against `LOG_RE`, and on success build the data row. -/
def processLine (line : List Char) : Option (List (List Char)) :=
  match LOG_RE_match (rstripNl line) with
  | none => none
  | some g => some (csvRow g)

/-- Accumulator update of the parse loop: on a match the row is written and
`rows_written` is incremented; otherwise the loop continues unchanged. -/
def parseStep (acc : List (List (List Char)) × Nat) (line : List Char) :
    List (List (List Char)) × Nat :=
  match processLine line with
  | none => acc
  | some row => (acc.1 ++ [row], acc.2 + 1)

/-- The whole parse loop over the input lines, starting from no data rows
and `rows_written = 0` (source lines 56, 83-117); returns the data rows in
write order together with the final `rows_written`. -/
def parseFile (lines : List (List Char)) : List (List (List Char)) × Nat :=
  lines.foldl parseStep ([], 0)

/-- The rows of the output CSV file: the fixed header followed by the data
rows (source lines 61-81, 95-115). -/
def outputCsv (lines : List (List Char)) : List (List (List Char)) :=
  headerRow :: (parseFile lines).1

/- ---------------------------------------------------------------------
   The git commit step (source lines 121-141).
--------------------------------------------------------------------- -/

/-- The observable actions of the commit step, in order: the three git
invocations made through the checked `git` helper, the bare
`git diff --cached --quiet`, and the two possible reports. -/
inductive GitEvent where
  | revParseWorkTree
  | addOut
  | diffCached
  | commitCmd
  | printedNoChanges
  | printedCommitted
deriving DecidableEq, Repr

/-- Exit statuses and captured diagnostic output of the four external git
commands an invocation may run. -/
structure GitEnv where
  revParseExit : Int
  revParseDiag : String
  addExit : Int
  addDiag : String
  diffCachedExit : Int
  commitExit : Int
  commitDiag : String
deriving DecidableEq, Repr

/-- `git(cmd, repo)` (source lines 45-46): `subprocess.run(..., check=True,
capture_output=True)` — on a non-zero exit status it raises a
`CalledProcessError` carrying the command's captured diagnostic output. -/
def checkedGit (exitCode : Int) (diag : String) : Except String Unit :=
  if exitCode = 0 then .ok () else .error diag

/-- Commit-message selection (source lines 128-131): the stripped
user-supplied message, or a generated one containing the current local
date and time to minute precision. -/
def pickMessage (message now : String) : String :=
  if message.trim = "" then
    ("Update nginx CSV export (").append (now.append (")"))
  else message.trim

/-- The commit step of `main` (source lines 121-141), run when `--commit`
is given.  The first two git commands and the final commit go through the
checked `git` helper and propagate failure; the staged-diff check
(source lines 134-136) is a bare `subprocess.run` whose return code is
only inspected: zero means "nothing to commit", non-zero triggers the
commit. -/
def commitStep (env : GitEnv) (message now : String) :
    Except String (List GitEvent) :=
  match checkedGit env.revParseExit env.revParseDiag with
  | .error e => .error e
  | .ok _ =>
  match checkedGit env.addExit env.addDiag with
  | .error e => .error e
  | .ok _ =>
    let _msg := pickMessage message now
    -- `subprocess.run` without `check=True`: a non-zero exit does not raise
    if env.diffCachedExit = 0 then
      .ok [.revParseWorkTree, .addOut, .diffCached, .printedNoChanges]
    else
      match checkedGit env.commitExit env.commitDiag with
      | .error e => .error e
      | .ok _ =>
        .ok [.revParseWorkTree, .addOut, .diffCached, .commitCmd,
             .printedCommitted]

/- ---------------------------------------------------------------------
   Concrete lines used by the claims.
--------------------------------------------------------------------- -/

/-- The example line of the specification. -/
def exLine : String :=
  "127.0.0.1 - - [10/Oct/2023:13:55:36 +0000] \"GET /index.html HTTP/1.1\" 200 612 \"-\" \"curl/7.68.0\" 123 0.002 [-] [-] - - - - abc123"

/-- The example line up to and including the closing quote of the
user-agent field — exactly the part of the line consumed by `headParse`. -/
def exHead : String :=
  "127.0.0.1 - - [10/Oct/2023:13:55:36 +0000] \"GET /index.html HTTP/1.1\" 200 612 \"-\" \"curl/7.68.0\""

/-- The part of the example line following the quoted user-agent field. -/
def exTail : String :=
  " 123 0.002 [-] [-] - - - - abc123"

/-- The captures `LOG_RE` produces on the example line. -/
def exGroups : LogGroups :=
  { remote_addr := ("127.0.0.1").data
    remote_user := ("-").data
    time_local := ("10/Oct/2023:13:55:36 +0000").data
    request := ("GET /index.html HTTP/1.1").data
    status := ("200").data
    body_bytes_sent := ("612").data
    http_referer := ("-").data
    http_user_agent := ("curl/7.68.0").data
    request_length := ("123").data
    request_time := ("0.002").data
    upstream_name := ("[-]").data
    upstream_other := ("[-]").data
    upstream_addr := ("-").data
    upstream_response_length := ("-").data
    upstream_response_time := ("-").data
    upstream_status := ("-").data
    request_id := ("abc123").data }

/-- A line whose request field is the single token `GET` (no spaces),
used to exercise the empty-token padding. -/
def shortReqLine : String :=
  "127.0.0.1 - - [10/Oct/2023:13:55:36 +0000] \"GET\" 200 612 \"-\" \"curl/7.68.0\" 123 0.002 [-] [-] - - - - abc123"

/-- The captures `LOG_RE` produces on `shortReqLine`. -/
def shortReqGroups : LogGroups :=
  { exGroups with request := ("GET").data }

/- ---------------------------------------------------------------------
   Helper lemmas.
--------------------------------------------------------------------- -/

theorem foldl_parseStep (lines : List (List Char)) :
    ∀ acc : List (List (List Char)) × Nat,
      lines.foldl parseStep acc =
        (acc.1 ++ lines.filterMap processLine,
         acc.2 + (lines.filterMap processLine).length) := by
  induction lines with
  | nil => intro acc; simp
  | cons l ls ih =>
    intro acc
    rw [List.foldl_cons, ih]
    cases hp : processLine l with
    | none => simp [parseStep, hp, List.filterMap_cons]
    | some row =>
      simp [parseStep, hp, List.filterMap_cons]
      omega

theorem parseFile_filterMap (lines : List (List Char)) :
    parseFile lines =
      (lines.filterMap processLine, (lines.filterMap processLine).length) := by
  rw [parseFile, foldl_parseStep]
  simp

theorem splitFirstSpace_eq_none (s : List Char) (h : s.count ' ' = 0) :
    splitFirstSpace s = none := by
  induction s with
  | nil => rfl
  | cons c r ih =>
    by_cases hc : c = ' '
    · simp [List.count_cons, hc] at h
    · simp [List.count_cons, hc] at h
      simp [splitFirstSpace, hc, ih h]

theorem splitFirstSpace_count (s : List Char) :
    ∀ a r, splitFirstSpace s = some (a, r) →
      s.count ' ' = r.count ' ' + 1 := by
  induction s with
  | nil => intro a r h; exact Option.noConfusion h
  | cons c t ih =>
    intro a r h
    by_cases hc : c = ' '
    · simp [splitFirstSpace, hc] at h
      simp [List.count_cons, hc, h.2]
    · simp [splitFirstSpace, hc] at h
      cases h2 : splitFirstSpace t with
      | none => simp [h2] at h
      | some p =>
        rcases p with ⟨a2, b2⟩
        simp [h2] at h
        obtain ⟨h3, h4⟩ := h
        subst h4
        simp [List.count_cons, hc, ih a2 b2 h2]

theorem reqSplit_bounds (s : List Char) :
    (pySplitSpaceMax2 s).length ≤ 3 ∧
    (s.count ' ' = 0 → reqPath s = [] ∧ reqProtocol s = []) ∧
    (s.count ' ' ≤ 1 → reqProtocol s = []) := by
  cases h1 : splitFirstSpace s with
  | none =>
    simp [pySplitSpaceMax2, h1, reqPath, reqProtocol, reqParts]
  | some p =>
    rcases p with ⟨a, r⟩
    have hc1 := splitFirstSpace_count s a r h1
    cases h2 : splitFirstSpace r with
    | none =>
      refine ⟨?_, ?_, ?_⟩
      · simp [pySplitSpaceMax2, h1, h2]
      · intro h0; omega
      · intro _; simp [reqProtocol, reqParts, pySplitSpaceMax2, h1, h2]
    | some q =>
      rcases q with ⟨b, r2⟩
      have hc2 := splitFirstSpace_count r b r2 h2
      refine ⟨?_, ?_, ?_⟩
      · simp [pySplitSpaceMax2, h1, h2]
      · intro h0; omega
      · intro h0; omega

/- ---------------------------------------------------------------------
   Claim theorems.
--------------------------------------------------------------------- -/

/-- Claim C1: every line matched by `LOG_RE` yields exactly one data row,
whose field count equals the header's column count, namely 19.  (In the
committed source the two `writer.writerow` blocks are dedented out of
`main`, so the file does not even compile; this theorem is about the
embedding with the intended indentation.) -/
theorem C1_matched_line_one_row_19_fields (line : List Char) (g : LogGroups)
    (h : LOG_RE_match (rstripNl line) = some g) :
    processLine line = some (csvRow g) ∧
    parseFile [line] = ([csvRow g], 1) ∧
    (csvRow g).length = headerRow.length ∧
    headerRow.length = 19 := by
  have hp : processLine line = some (csvRow g) := by simp [processLine, h]
  refine ⟨hp, ?_, rfl, rfl⟩
  simp [parseFile, parseStep, hp]

theorem C1_witness :
    processLine exLine.data = some (csvRow exGroups) ∧
    parseFile [exLine.data] = ([csvRow exGroups], 1) ∧
    (csvRow exGroups).length = headerRow.length ∧
    headerRow.length = 19 :=
  C1_matched_line_one_row_19_fields exLine.data exGroups (by decide)

/-- Claim C2: the request field of a matched line is split into at most
three space-separated tokens, assigned (through the row's columns 3-5) to
method, path and protocol; with no space in the request, path and protocol
are empty, and with at most one space, protocol is empty. -/
theorem C2_request_split_padding (line : List Char) (g : LogGroups)
    (_h : LOG_RE_match (rstripNl line) = some g) :
    (pySplitSpaceMax2 g.request).length ≤ 3 ∧
    (csvRow g).getD 3 [] = reqMethod g.request ∧
    (csvRow g).getD 4 [] = reqPath g.request ∧
    (csvRow g).getD 5 [] = reqProtocol g.request ∧
    (g.request.count ' ' = 0 → reqPath g.request = [] ∧ reqProtocol g.request = []) ∧
    (g.request.count ' ' ≤ 1 → reqProtocol g.request = []) :=
  ⟨(reqSplit_bounds g.request).1, rfl, rfl, rfl,
   (reqSplit_bounds g.request).2.1, (reqSplit_bounds g.request).2.2⟩

theorem C2_witness :
    (pySplitSpaceMax2 shortReqGroups.request).length ≤ 3 ∧
    (csvRow shortReqGroups).getD 3 [] = reqMethod shortReqGroups.request ∧
    (csvRow shortReqGroups).getD 4 [] = reqPath shortReqGroups.request ∧
    (csvRow shortReqGroups).getD 5 [] = reqProtocol shortReqGroups.request ∧
    (shortReqGroups.request.count ' ' = 0 →
      reqPath shortReqGroups.request = [] ∧ reqProtocol shortReqGroups.request = []) ∧
    (shortReqGroups.request.count ' ' ≤ 1 →
      reqProtocol shortReqGroups.request = []) :=
  C2_request_split_padding shortReqLine.data shortReqGroups (by decide)

/-- Claim C3: the specification's example line matches the grammar, and its
row has method `GET`, path `/index.html`, protocol `HTTP/1.1`, status `200`
and request id `abc123` (columns 3, 4, 5, 6 and 18 of the row). -/
theorem C3_example_line :
    LOG_RE_match exLine.data = some exGroups ∧
    processLine exLine.data = some (csvRow exGroups) ∧
    (csvRow exGroups).getD 3 [] = ("GET").data ∧
    (csvRow exGroups).getD 4 [] = ("/index.html").data ∧
    (csvRow exGroups).getD 5 [] = ("HTTP/1.1").data ∧
    (csvRow exGroups).getD 6 [] = ("200").data ∧
    (csvRow exGroups).getD 18 [] = ("abc123").data := by
  refine ⟨by decide, ?_, by decide, by decide, by decide, by decide, by decide⟩
  simp [processLine, show LOG_RE_match (rstripNl exLine.data) = some exGroups by decide]

/-- Claim C4: a line that `LOG_RE` does not match contributes no row and no
error: the loop result over any input containing it equals the result with
the line removed.  (The model is a total function: the non-matching branch
of the loop is a bare `continue`.  The committed source, however, raises an
IndentationError before the loop ever runs, because the `writer.writerow`
blocks are dedented to module level.) -/
theorem C4_unmatched_line_skipped (pre post : List (List Char))
    (line : List Char) (h : LOG_RE_match (rstripNl line) = none) :
    processLine line = none ∧
    parseFile (pre ++ line :: post) = parseFile (pre ++ post) := by
  have hp : processLine line = none := by simp [processLine, h]
  refine ⟨hp, ?_⟩
  rw [parseFile_filterMap, parseFile_filterMap]
  simp [List.filterMap_append, List.filterMap_cons, hp]

theorem C4_witness :
    processLine ("this is not an access log line").data = none ∧
    parseFile ([] ++ ("this is not an access log line").data :: []) =
      parseFile ([] ++ []) :=
  C4_unmatched_line_skipped [] [] ("this is not an access log line").data
    (by decide)

/-- Claim C5: the final `rows_written` equals the number of data rows of
the output (header excluded), the data rows appear in input order (they
are exactly `filterMap` of the per-line processing), and an empty input
yields a header-only CSV with count 0.  (Again proven of the intended
indentation; the committed file fails to compile, so no CSV and no count
are ever produced.) -/
theorem C5_row_count_and_order (lines : List (List Char)) :
    (parseFile lines).1 = lines.filterMap processLine ∧
    (parseFile lines).2 = (parseFile lines).1.length ∧
    outputCsv lines = headerRow :: lines.filterMap processLine ∧
    parseFile [] = ([], 0) ∧
    outputCsv [] = [headerRow] := by
  rw [outputCsv, parseFile_filterMap]
  exact ⟨rfl, rfl, rfl, rfl, rfl⟩

theorem takeNonRBracket_no_rb (l : List Char) :
    ']' ∉ (takeNonRBracket l).1 := by
  induction l with
  | nil => simp [takeNonRBracket]
  | cons c r ih =>
    by_cases hc : c = ']'
    · simp [takeNonRBracket, hc]
    · simp only [takeNonRBracket, hc, if_false, List.mem_cons]
      intro hmem
      rcases hmem with h1 | h2
      · exact hc h1.symm
      · exact ih h2

theorem bracketedStar_shape (l s r : List Char)
    (h : bracketedStar l = some (s, r)) :
    ∃ a, s = '[' :: (a ++ [']']) ∧ ']' ∉ a := by
  unfold bracketedStar at h
  split at h
  · rename_i r1
    split at h
    · rename_i inner rest heq
      injection h with h1
      injection h1 with h2 h3
      refine ⟨inner, h2.symm, ?_⟩
      have hnot := takeNonRBracket_no_rb r1
      rw [heq] at hnot
      exact hnot
    · exact Option.noConfusion h
  · exact Option.noConfusion h

theorem tailParse_upstreams (l : List Char) (t : TailGroups)
    (h : tailParse l = some t) :
    (∃ a, t.upstream_name = '[' :: (a ++ [']']) ∧ ']' ∉ a) ∧
    (∃ b, t.upstream_other = '[' :: (b ++ [']']) ∧ ']' ∉ b) := by
  unfold tailParse at h
  repeat (split at h <;> try exact Option.noConfusion h)
  injection h with h1
  subst h1
  constructor
  · exact bracketedStar_shape _ _ _ (by assumption)
  · exact bracketedStar_shape _ _ _ (by assumption)

/-- Claim C10: on every matched line the `upstream_name` and
`upstream_other` captures — written verbatim to columns 12 and 13 of the
data row — span the whole bracketed source field, enclosing square
brackets included. -/
theorem C10_upstream_brackets_kept (line : List Char) (g : LogGroups)
    (h : LOG_RE_match (rstripNl line) = some g) :
    (∃ a, g.upstream_name = '[' :: (a ++ [']']) ∧ ']' ∉ a) ∧
    (∃ b, g.upstream_other = '[' :: (b ++ [']']) ∧ ']' ∉ b) ∧
    (csvRow g).getD 12 [] = g.upstream_name ∧
    (csvRow g).getD 13 [] = g.upstream_other := by
  unfold LOG_RE_match at h
  split at h
  · exact Option.noConfusion h
  · rename_i hd r heq
    split at h
    · exact Option.noConfusion h
    · rename_i t heqt
      injection h with h1
      subst h1
      have hu := tailParse_upstreams _ _ heqt
      exact ⟨hu.1, hu.2, rfl, rfl⟩

theorem C10_witness :
    (∃ a, exGroups.upstream_name = '[' :: (a ++ [']']) ∧ ']' ∉ a) ∧
    (∃ b, exGroups.upstream_other = '[' :: (b ++ [']']) ∧ ']' ∉ b) ∧
    (csvRow exGroups).getD 12 [] = exGroups.upstream_name ∧
    (csvRow exGroups).getD 13 [] = exGroups.upstream_other :=
  C10_upstream_brackets_kept exLine.data exGroups (by decide)

/- ---------------------------------------------------------------------
   Claims C6 and C7: the shape of the grammar.
--------------------------------------------------------------------- -/

/-- The example line from the slot of `remote_user` onward: everything
after `127.0.0.1 <dash-slot-token> `. -/
def c6After : String :=
  " [10/Oct/2023:13:55:36 +0000] \"GET /index.html HTTP/1.1\" 200 612 \"-\" \"curl/7.68.0\" 123 0.002 [-] [-] - - - - abc123"

/-- The captures produced when the `remote_user` slot holds the single
character `d` and everything else is as in the example line. -/
def c6Groups (d : Char) : LogGroups :=
  { exGroups with remote_user := [d] }

/-- The captures `headParse` produces on `exHead`. -/
def exHeadGroups : HeadGroups :=
  { remote_addr := ("127.0.0.1").data
    remote_user := ("-").data
    time_local := ("10/Oct/2023:13:55:36 +0000").data
    request := ("GET /index.html HTTP/1.1").data
    status := ("200").data
    body_bytes_sent := ("612").data
    http_referer := ("-").data
    http_user_agent := ("curl/7.68.0").data }

/-- Counts the maximal runs of non-whitespace characters; `inside` records
whether the scan is currently inside such a run. -/
def countFieldsAux : Bool → List Char → Nat
  | _, [] => 0
  | inside, c :: r =>
    if isWs c then countFieldsAux false r
    else (if inside then 0 else 1) + countFieldsAux true r

/-- The number of whitespace-delimited fields of a piece of text. -/
def wsFieldCount (l : List Char) : Nat := countFieldsAux false l

/-- Tails made of `n` whitespace-separated fields shaped like the example
line's tail: fields 2 and 3 bracketed, every other field a dash. -/
def c7TailToks (n : Nat) : List (List Char) :=
  (List.range n).map (fun i => if i = 2 ∨ i = 3 then ("[-]").data else ("-").data)

/-- Joins fields, each preceded by a single space. -/
def joinSp : List (List Char) → List Char
  | [] => []
  | t :: ts => ' ' :: (t ++ joinSp ts)

theorem c7TailToks_succ (m : Nat) :
    c7TailToks (m + 1) =
      c7TailToks m ++ [if m = 2 ∨ m = 3 then ("[-]").data else ("-").data] := by
  simp [c7TailToks, List.range_succ]

theorem c7TailToks_big (k : Nat) :
    c7TailToks (10 + k) = c7TailToks 10 ++ List.replicate k ("-").data := by
  induction k with
  | zero => simp
  | succ k ih =>
    have hs : 10 + (k + 1) = (10 + k) + 1 := rfl
    have h2 : ¬(10 + k = 2 ∨ 10 + k = 3) := by omega
    rw [hs, c7TailToks_succ, ih, if_neg h2, List.replicate_succ']
    simp

theorem joinSp_append (a b : List (List Char)) :
    joinSp (a ++ b) = joinSp a ++ joinSp b := by
  induction a with
  | nil => simp [joinSp]
  | cons t ts ih => simp [joinSp, ih]

/-- Counterexample to claim C7: the specification's example line matches
the grammar although only 9 (not 19) whitespace-delimited fields follow
its quoted user-agent. -/
theorem C7_counterexample :
    LOG_RE_match exLine.data = some exGroups ∧
    exLine.data = exHead.data ++ exTail.data ∧
    wsFieldCount exTail.data = 9 ∧ (9 : Nat) ≠ 19 := by decide

/-- Claim C7 (amended): the regular expression requires exactly 9 — not
19 — whitespace-delimited fields after the quoted user-agent: varying only
the number of trailing fields (bracketed where the pattern requires it,
dashes elsewhere), the line matches precisely when there are 9 of them. -/
theorem C7_nine_fields_after_user_agent (n : Nat) :
    (LOG_RE_match (exHead.data ++ joinSp (c7TailToks n))).isSome = true ↔
      n = 9 := by
  have hfac : ∀ X, LOG_RE_match (exHead.data ++ X) =
      (match tailParse X with
       | none => none
       | some t => some (combineGroups exHeadGroups t)) := fun X => rfl
  have h10 : ∀ X, tailParse ((" - - [-] [-] - - - - - -").data ++ X) = none :=
    fun X => rfl
  constructor
  · intro h
    by_contra hne
    rcases Nat.lt_or_ge n 10 with hlt | hge
    · interval_cases n
      · exact absurd h (by decide)
      · exact absurd h (by decide)
      · exact absurd h (by decide)
      · exact absurd h (by decide)
      · exact absurd h (by decide)
      · exact absurd h (by decide)
      · exact absurd h (by decide)
      · exact absurd h (by decide)
      · exact absurd h (by decide)
      · exact hne rfl
    · obtain ⟨k, rfl⟩ : ∃ k, n = 10 + k := ⟨n - 10, by omega⟩
      rw [c7TailToks_big k, joinSp_append,
        (by decide : joinSp (c7TailToks 10) = (" - - [-] [-] - - - - - -").data),
        hfac, h10] at h
      simp at h
  · rintro rfl
    decide

/-- Counterexample to claim C6: in this line the token between the address
and the user is `X`, and the token standing right before the bracketed
timestamp (the `remote_user` capture itself) is `Y` — neither is a dash —
yet the line matches, with `remote_user = "Y"`. -/
theorem C6_counterexample :
    LOG_RE_match (("127.0.0.1 X Y [10/Oct/2023:13:55:36 +0000] \"GET /index.html HTTP/1.1\" 200 612 \"-\" \"curl/7.68.0\" 123 0.002 [-] [-] - - - - abc123").data)
      = some (c6Groups 'Y') := by decide

/-- Claim C6 (amended): the grammar is anchored and requires, in order:
address, one arbitrary non-whitespace token (the slot conventionally
holding a dash, matched by an uncaptured `\S+`), user (also an arbitrary
non-whitespace token), bracketed timestamp, quoted request, three-digit
status, body size, quoted referer, quoted user agent, request length,
request time, two bracketed upstream fields, address, response length,
response time, status and request id, separated by runs of whitespace.
There is no separate token between the user and the bracketed timestamp,
and non-dash tokens in the two slots before the timestamp do not cause a
match failure: for arbitrary non-whitespace characters `c` and `d` in
those slots the line still matches, with `remote_user` capturing `d`. -/
theorem C6_dash_slots_accept_any_token (c d : Char)
    (hc : isWs c = false) (hd : isWs d = false) :
    LOG_RE_match (("127.0.0.1 ").data ++ c :: ' ' :: d :: c6After.data) =
      some (c6Groups d) := by
  have hsp : isWs ' ' = true := rfl
  have h5b : takeNonWs c6After.data = ([], c6After.data) := by decide
  have h1 : pSplus (("127.0.0.1 ").data ++ c :: ' ' :: d :: c6After.data)
      = some (("127.0.0.1").data, ' ' :: c :: ' ' :: d :: c6After.data) := rfl
  have h2 : wsPlus (' ' :: c :: ' ' :: d :: c6After.data)
      = some (c :: ' ' :: d :: c6After.data) := by
    simp [wsPlus, skipWs, hsp, hc]
  have h3 : pSplus (c :: ' ' :: d :: c6After.data)
      = some ([c], ' ' :: d :: c6After.data) := by
    simp [pSplus, takeNonWs, hc, hsp]
  have h4 : wsPlus (' ' :: d :: c6After.data) = some (d :: c6After.data) := by
    simp [wsPlus, skipWs, hsp, hd]
  have h5c : takeNonWs (d :: c6After.data) = ([d], c6After.data) := by
    rw [takeNonWs, hd]
    simp [h5b]
  have h5 : pSplus (d :: c6After.data) = some ([d], c6After.data) := by
    rw [pSplus.eq_def]
    simp only [hd, Bool.false_eq_true, if_false, h5c]
  unfold LOG_RE_match headParse
  simp only [h1, h2, h3, h4, h5]
  rfl

theorem C6_witness :
    LOG_RE_match (("127.0.0.1 ").data ++ 'Q' :: ' ' :: 'Z' :: c6After.data) =
      some (c6Groups 'Z') :=
  C6_dash_slots_accept_any_token 'Q' 'Z' (by decide) (by decide)

/- ---------------------------------------------------------------------
   Claims C8 and C9: the commit step.
--------------------------------------------------------------------- -/

/-- Counterexample to claim C8: a run in which `git diff --cached --quiet`
exits with status 1 (staged changes exist) while every checked command
succeeds.  The non-zero exit of the staged-diff check is not a fatal
error: the program completes normally and commits. -/
theorem C8_counterexample :
    commitStep ⟨0, "", 0, "", 1, 0, ""⟩ "msg" "2023-10-10 13:55" =
      .ok [.revParseWorkTree, .addOut, .diffCached, .commitCmd,
           .printedCommitted] := rfl

/-- Claim C8 (amended): the three git invocations made through the checked
`git` helper — verify working tree, stage file, commit — propagate a
non-zero exit status as a fatal error carrying the command's diagnostic
output; the staged-diff check, however, is run unchecked, and its non-zero
exit status is not an error but the signal that triggers the commit. -/
theorem C8_checked_commands_fatal (env : GitEnv) (message now : String) :
    (env.revParseExit ≠ 0 →
      commitStep env message now = .error env.revParseDiag) ∧
    (env.revParseExit = 0 → env.addExit ≠ 0 →
      commitStep env message now = .error env.addDiag) ∧
    (env.revParseExit = 0 → env.addExit = 0 → env.diffCachedExit ≠ 0 →
      env.commitExit ≠ 0 →
      commitStep env message now = .error env.commitDiag) ∧
    (env.revParseExit = 0 → env.addExit = 0 → env.diffCachedExit ≠ 0 →
      env.commitExit = 0 →
      commitStep env message now =
        .ok [.revParseWorkTree, .addOut, .diffCached, .commitCmd,
             .printedCommitted]) := by
  refine ⟨?_, ?_, ?_, ?_⟩
  · intro h1
    simp [commitStep, checkedGit, h1]
  · intro h1 h2
    simp [commitStep, checkedGit, h1, h2]
  · intro h1 h2 h3 h4
    simp [commitStep, checkedGit, h1, h2, h3, h4]
  · intro h1 h2 h3 h4
    simp [commitStep, checkedGit, h1, h2, h3, h4]

theorem C8_witness :
    commitStep ⟨1, "fatal: not a git repository", 0, "", 0, 0, ""⟩ "" "" =
      .error "fatal: not a git repository" :=
  (C8_checked_commands_fatal ⟨1, "fatal: not a git repository", 0, "", 0, 0, ""⟩
    "" "").1 (by decide)

/-- Claim C9: when commit mode is enabled, the earlier checked commands
succeed, and the staged-diff check exits 0 (the staged state does not
differ from the last commit), the program reports "nothing to commit" and
never invokes the commit command — so a rerun on an unchanged repository
state produces no second commit. -/
theorem C9_no_commit_when_staged_clean (env : GitEnv) (message now : String)
    (h1 : env.revParseExit = 0) (h2 : env.addExit = 0)
    (h3 : env.diffCachedExit = 0) :
    commitStep env message now =
      .ok [.revParseWorkTree, .addOut, .diffCached, .printedNoChanges] ∧
    GitEvent.commitCmd ∉
      [GitEvent.revParseWorkTree, GitEvent.addOut, GitEvent.diffCached,
       GitEvent.printedNoChanges] := by
  refine ⟨?_, by decide⟩
  simp [commitStep, checkedGit, h1, h2, h3]

theorem C9_witness :
    commitStep ⟨0, "", 0, "", 0, 0, ""⟩ "" "" =
      .ok [.revParseWorkTree, .addOut, .diffCached, .printedNoChanges] ∧
    GitEvent.commitCmd ∉
      [GitEvent.revParseWorkTree, GitEvent.addOut, GitEvent.diffCached,
       GitEvent.printedNoChanges] :=
  C9_no_commit_when_staged_clean ⟨0, "", 0, "", 0, 0, ""⟩ "" "" rfl rfl rfl

end NginxLogToCsv
